import Mathlib

/-!
Shallow embedding of the encounter lifecycle and assessment completion
engine: the visit state machine (`app/models/visit.py`,
`app/services/visit_service.py`), the assessment records and services
(`app/models/assessment.py`, `app/services/assessment_service.py`,
`app/schemas/assessment.py`), the form-submission binder
(`app/models/form.py`) and the audit classification policy
(`app/services/audit_service.py`).

Python floats are modelled as rationals, integers as integers, UUIDs as
naturals, nullable columns and unset pydantic fields as `Option`, and the
database as lists of rows; `scalar_one_or_none` becomes `List.find?` and a
raised `ValueError` becomes `Except.error` carrying the error kind the
specification assigns to that message.
-/

/-- Error taxonomy of the service layer (spec section 7).  The Python
implementation raises `ValueError` with a message; each raise site is
tagged here with the kind the specification assigns to that message.
`integrity` stands for a storage-level `IntegrityError` that no service
code translates. -/
inductive ServiceError where
  | notFound (msg : String)
  | validation (msg : String)
  | conflict (msg : String)
  | stateError (msg : String)
  | precondition (msg : String)
  | integrity (msg : String)
deriving DecidableEq, Repr

/-- `VisitStatus.OPEN = "open"` (`app/models/visit.py`): statuses are stored
as strings. -/
def VisitStatus.OPEN : String := "open"

/-- `VisitStatus.COMPLETED = "completed"`. -/
def VisitStatus.COMPLETED : String := "completed"

/-- `VisitStatus.CANCELLED = "cancelled"`. -/
def VisitStatus.CANCELLED : String := "cancelled"

/-- Row of `patient_visits` (`app/models/visit.py`), restricted to the
columns the lifecycle engine reads or writes. -/
structure PatientVisit where
  id : Nat
  patient_id : Nat
  status : String
  visit_date : Nat
  chief_complaint : Option String
  notes : Option String
deriving DecidableEq, Repr

/-- The transition dictionary of `PatientVisit.can_transition_to`:
`{"open": ["completed", "cancelled"], "completed": ["open"], "cancelled": []}`
with `.get(status, [])` for any other key. -/
def transitions (status : String) : List String :=
  if status = "open" then ["completed", "cancelled"]
  else if status = "completed" then ["open"]
  else if status = "cancelled" then []
  else []

/-- `PatientVisit.can_transition_to`: membership of the target status in the
allowed list for the current status. -/
def can_transition_to (status new_status : String) : Bool :=
  (transitions status).any (fun x => x == new_status)

/-- `VisitUpdate` pydantic schema (`app/schemas/visit.py`): every field
optional; `none` means the field was not set in the request
(`dict(exclude_unset=True)` drops it). -/
structure VisitUpdate where
  visit_date : Option Nat := none
  status : Option String := none
  chief_complaint : Option String := none
  notes : Option String := none
deriving DecidableEq, Repr

/-- `if not update_data:` — the patch carries no field at all. -/
def VisitUpdate.isEmpty (u : VisitUpdate) : Bool :=
  u.visit_date.isNone && u.status.isNone && u.chief_complaint.isNone && u.notes.isNone

/-- `update_data.get(field, current)` / `setattr` semantics for one field:
a field present in the patch replaces the stored value, an absent field
leaves it untouched. -/
def mergePatch {α : Type} (patch old : Option α) : Option α :=
  match patch with
  | some v => some v
  | none => old

@[simp] theorem mergePatch_none {α : Type} (old : Option α) :
    mergePatch none old = old := rfl

@[simp] theorem mergePatch_some {α : Type} (v : α) (old : Option α) :
    mergePatch (some v) old = some v := rfl

/-- `for field, value in update_data.items(): setattr(visit, field, value)`
applied to a `VisitUpdate` patch. -/
def applyVisitUpdate (v : PatientVisit) (u : VisitUpdate) : PatientVisit :=
  { v with
    visit_date := u.visit_date.getD v.visit_date
    status := u.status.getD v.status
    chief_complaint := mergePatch u.chief_complaint v.chief_complaint
    notes := mergePatch u.notes v.notes }

/-- Row of `form_definitions` (`app/models/form.py`), restricted to the
columns the services read. -/
structure FormDefinition where
  form_id : Nat
  form_type : String
  is_active : String
deriving DecidableEq, Repr

/-- Row of `form_submissions` (`app/models/form.py`).  Note the table has
foreign keys on `visit_id` and `form_id` but no uniqueness constraint over
the pair. -/
structure FormSubmission where
  submission_id : Nat
  visit_id : Nat
  form_id : Nat
  submitted_by : Nat
  submission_status : String
deriving DecidableEq, Repr

/-- Row of `nursing_assessments` (`app/models/assessment.py`); the
`submission_id` column is declared `unique=True`. -/
structure NursingAssessment where
  assessment_id : Nat
  submission_id : Nat
  temperature_celsius : Option ℚ
  pulse_bpm : Option ℤ
  blood_pressure_systolic : Option ℤ
  blood_pressure_diastolic : Option ℤ
  respiratory_rate_per_min : Option ℤ
  oxygen_saturation_percent : Option ℚ
  pain_assessment : Option String
  fall_risk_assessment : Option String
  weight_kg : Option ℚ
  height_cm : Option ℚ
  bmi : Option ℚ
  general_condition : Option String
  consciousness_level : Option String
  skin_condition : Option String
  mobility_status : Option String
  notes : Option String
  assessed_by : Nat
deriving DecidableEq, Repr

/-- Row of `radiology_assessments` (`app/models/assessment.py`). -/
structure RadiologyAssessment where
  radiology_id : Nat
  submission_id : Nat
  findings : String
  diagnosis : Option String
  recommendations : Option String
  modality : Option String
  body_region : Option String
  contrast_used : Option String
  assessed_by : Nat
deriving DecidableEq, Repr

/-- The shared storage the services run against: one list of rows per
table. -/
structure Database where
  visits : List PatientVisit
  form_definitions : List FormDefinition
  form_submissions : List FormSubmission
  nursing_assessments : List NursingAssessment
  radiology_assessments : List RadiologyAssessment
deriving DecidableEq, Repr

/-- `VisitService.get_visit`: `SELECT PatientVisit WHERE id == visit_id`,
`scalar_one_or_none`. -/
def get_visit (db : Database) (visit_id : Nat) : Option PatientVisit :=
  db.visits.find? (fun v => v.id == visit_id)

/-- Replace the stored row of a visit after `setattr` mutation and
`commit`. -/
def replace_visit (db : Database) (v : PatientVisit) : Database :=
  { db with visits := db.visits.map (fun w => if w.id == v.id then v else w) }

/-- `VisitService.update_visit`: returns `none` when the visit does not
exist, returns the visit unchanged on an empty patch, validates a requested
status change through `can_transition_to` (raising
`ValueError("Cannot transition from ... to ...")`, a `StateError` in the
specification's taxonomy) and otherwise applies the patch and commits. -/
def update_visit (db : Database) (visit_id : Nat) (u : VisitUpdate) :
    Except ServiceError (Option (Database × PatientVisit)) :=
  match get_visit db visit_id with
  | none => .ok none
  | some visit =>
    if u.isEmpty then .ok (some (db, visit))
    else
      match u.status with
      | some new_status =>
        if can_transition_to visit.status new_status then
          let visit2 := applyVisitUpdate visit u
          .ok (some (replace_visit db visit2, visit2))
        else
          .error (.stateError
            ("Cannot transition from " ++ visit.status ++ " to " ++ new_status))
      | none =>
        let visit2 := applyVisitUpdate visit u
        .ok (some (replace_visit db visit2, visit2))

/-- `VisitService.complete_visit`: delegates to `update_visit` with a patch
that only sets `status = COMPLETED`.  It performs no other check. -/
def complete_visit (db : Database) (visit_id : Nat) :
    Except ServiceError (Option (Database × PatientVisit)) :=
  update_visit db visit_id { status := some VisitStatus.COMPLETED }

/-- `VisitService.cancel_visit`: `update_visit` with `status = CANCELLED`. -/
def cancel_visit (db : Database) (visit_id : Nat) :
    Except ServiceError (Option (Database × PatientVisit)) :=
  update_visit db visit_id { status := some VisitStatus.CANCELLED }

/-- `AssessmentService.get_nursing_assessment_by_visit`:
`SELECT NursingAssessment JOIN FormSubmission WHERE FormSubmission.visit_id == visit_id`. -/
def get_nursing_assessment_by_visit (db : Database) (visit_id : Nat) :
    Option NursingAssessment :=
  db.nursing_assessments.find? (fun a =>
    db.form_submissions.any (fun s =>
      s.submission_id == a.submission_id && s.visit_id == visit_id))

/-- `AssessmentService.get_radiology_assessment_by_visit`. -/
def get_radiology_assessment_by_visit (db : Database) (visit_id : Nat) :
    Option RadiologyAssessment :=
  db.radiology_assessments.find? (fun a =>
    db.form_submissions.any (fun s =>
      s.submission_id == a.submission_id && s.visit_id == visit_id))

/-- The `assessments_complete` field of
`AssessmentService.get_visit_assessments`: both assessment kinds exist for
the visit. -/
def assessments_complete (db : Database) (visit_id : Nat) : Bool :=
  (get_nursing_assessment_by_visit db visit_id).isSome &&
  (get_radiology_assessment_by_visit db visit_id).isSome

/-- `AssessmentService.can_complete_visit`, the Completion Gate. -/
def can_complete_visit (db : Database) (visit_id : Nat) : Bool :=
  assessments_complete db visit_id

/-- Python's `round` to the nearest integer, ties to even
(banker's rounding), on exact rationals. -/
def roundHalfEven (x : ℚ) : ℤ :=
  let n := Int.floor x
  let frac := x - (n : ℚ)
  if frac < 1/2 then n
  else if 1/2 < frac then n + 1
  else if n % 2 = 0 then n else n + 1

/-- Python's `round(x, 1)`. -/
def pyRound1 (x : ℚ) : ℚ :=
  ((roundHalfEven (x * 10) : ℤ) : ℚ) / 10

/-- Python truthiness of a nullable numeric value: `None` and `0` are
falsy. -/
def truthyQ (v : Option ℚ) : Bool :=
  match v with
  | none => false
  | some x => x != 0

/-- Python truthiness of a nullable integer value. -/
def truthyZ (v : Option ℤ) : Bool :=
  match v with
  | none => false
  | some x => x != 0

/-- `NursingAssessment.is_critical_vitals` (`app/models/assessment.py`):
each vital is consulted only when truthy, and triggers the flag when
outside its critical band. -/
def is_critical_vitals (a : NursingAssessment) : Bool :=
  (truthyQ a.temperature_celsius &&
    (a.temperature_celsius.getD 0 < 35 || a.temperature_celsius.getD 0 > 40)) ||
  (truthyZ a.pulse_bpm &&
    (a.pulse_bpm.getD 0 < 50 || a.pulse_bpm.getD 0 > 150)) ||
  (truthyQ a.oxygen_saturation_percent &&
    a.oxygen_saturation_percent.getD 0 < 90)

/-- `NursingAssessmentCreate` pydantic schema (`app/schemas/assessment.py`):
`visit_id` required, every clinical field optional. -/
structure NursingAssessmentCreate where
  visit_id : Nat
  temperature_celsius : Option ℚ := none
  pulse_bpm : Option ℤ := none
  blood_pressure_systolic : Option ℤ := none
  blood_pressure_diastolic : Option ℤ := none
  respiratory_rate_per_min : Option ℤ := none
  oxygen_saturation_percent : Option ℚ := none
  pain_assessment : Option String := none
  fall_risk_assessment : Option String := none
  weight_kg : Option ℚ := none
  height_cm : Option ℚ := none
  general_condition : Option String := none
  consciousness_level : Option String := none
  skin_condition : Option String := none
  mobility_status : Option String := none
  notes : Option String := none
deriving DecidableEq, Repr

/-- `NursingAssessmentUpdate` pydantic schema: all fields optional, `none`
meaning the field is absent from the patch (`exclude_unset`).  The schema
has no `bmi` field. -/
structure NursingAssessmentUpdate where
  temperature_celsius : Option ℚ := none
  pulse_bpm : Option ℤ := none
  blood_pressure_systolic : Option ℤ := none
  blood_pressure_diastolic : Option ℤ := none
  respiratory_rate_per_min : Option ℤ := none
  oxygen_saturation_percent : Option ℚ := none
  pain_assessment : Option String := none
  fall_risk_assessment : Option String := none
  weight_kg : Option ℚ := none
  height_cm : Option ℚ := none
  general_condition : Option String := none
  consciousness_level : Option String := none
  skin_condition : Option String := none
  mobility_status : Option String := none
  notes : Option String := none
deriving DecidableEq, Repr

/-- `RadiologyAssessmentUpdate` pydantic schema. -/
structure RadiologyAssessmentUpdate where
  findings : Option String := none
  diagnosis : Option String := none
  recommendations : Option String := none
  modality : Option String := none
  body_region : Option String := none
  contrast_used : Option String := none
deriving DecidableEq, Repr

/-- Range constraint of a pydantic `Field(None, ge := lo, le := hi)` on an
optional rational field: only a present value is checked. -/
def inRangeQ (v : Option ℚ) (lo hi : ℚ) : Bool :=
  match v with
  | none => true
  | some x => lo ≤ x && x ≤ hi

/-- Same for an optional integer field. -/
def inRangeZ (v : Option ℤ) (lo hi : ℤ) : Bool :=
  match v with
  | none => true
  | some x => lo ≤ x && x ≤ hi

/-- `max_length` constraint of an optional string field. -/
def lenAtMost (v : Option String) (n : Nat) : Bool :=
  match v with
  | none => true
  | some s => s.length ≤ n

/-- The `validate_blood_pressure` validator of `NursingAssessmentUpdate`:
the systolic/diastolic comparison fires only when both values are present
in the same patch; it never consults the stored assessment. -/
def bp_relational_ok (sys dia : Option ℤ) : Bool :=
  match dia with
  | none => true
  | some d =>
    match sys with
    | none => true
    | some s => d < s

/-- Field-level validation of `NursingAssessmentUpdate`: the declared
`ge`/`le`/`gt`/`max_length` bounds plus the blood-pressure validator. -/
def validNursingUpdate (p : NursingAssessmentUpdate) : Bool :=
  inRangeQ p.temperature_celsius 30 45 &&
  inRangeZ p.pulse_bpm 30 200 &&
  inRangeZ p.blood_pressure_systolic 70 250 &&
  inRangeZ p.blood_pressure_diastolic 40 150 &&
  inRangeZ p.respiratory_rate_per_min 8 60 &&
  inRangeQ p.oxygen_saturation_percent 70 100 &&
  lenAtMost p.pain_assessment 1000 &&
  lenAtMost p.fall_risk_assessment 1000 &&
  (match p.weight_kg with | none => true | some w => 0 < w && w ≤ 500) &&
  (match p.height_cm with | none => true | some h => 0 < h && h ≤ 300) &&
  lenAtMost p.general_condition 100 &&
  lenAtMost p.consciousness_level 50 &&
  lenAtMost p.skin_condition 1000 &&
  lenAtMost p.mobility_status 100 &&
  lenAtMost p.notes 2000 &&
  bp_relational_ok p.blood_pressure_systolic p.blood_pressure_diastolic

/-- Field-level validation of `NursingAssessmentCreate` (same bounds and
the same blood-pressure validator as the base schema). -/
def validNursingCreate (d : NursingAssessmentCreate) : Bool :=
  inRangeQ d.temperature_celsius 30 45 &&
  inRangeZ d.pulse_bpm 30 200 &&
  inRangeZ d.blood_pressure_systolic 70 250 &&
  inRangeZ d.blood_pressure_diastolic 40 150 &&
  inRangeZ d.respiratory_rate_per_min 8 60 &&
  inRangeQ d.oxygen_saturation_percent 70 100 &&
  lenAtMost d.pain_assessment 1000 &&
  lenAtMost d.fall_risk_assessment 1000 &&
  (match d.weight_kg with | none => true | some w => 0 < w && w ≤ 500) &&
  (match d.height_cm with | none => true | some h => 0 < h && h ≤ 300) &&
  lenAtMost d.general_condition 100 &&
  lenAtMost d.consciousness_level 50 &&
  lenAtMost d.skin_condition 1000 &&
  lenAtMost d.mobility_status 100 &&
  lenAtMost d.notes 2000 &&
  bp_relational_ok d.blood_pressure_systolic d.blood_pressure_diastolic

/-- First step of `AssessmentService.create_*_assessment`:
`SELECT PatientVisit WHERE id == visit_id AND status == OPEN`. -/
def find_open_visit (db : Database) (visit_id : Nat) : Option PatientVisit :=
  db.visits.find? (fun v => v.id == visit_id && v.status == "open")

/-- `AssessmentService._get_or_create_form_definition`: look up the active
definition for the form type, creating a default one (with a fresh id
standing for `uuid4`) when none exists. -/
def get_or_create_form_definition (db : Database) (form_type : String)
    (fresh_form_id : Nat) : Database × FormDefinition :=
  match db.form_definitions.find? (fun f =>
      f.form_type == form_type && f.is_active == "active") with
  | some f => (db, f)
  | none =>
    let f : FormDefinition :=
      { form_id := fresh_form_id, form_type := form_type, is_active := "active" }
    ({ db with form_definitions := db.form_definitions ++ [f] }, f)

/-- The read step inside `_create_form_submission`:
`SELECT FormSubmission WHERE visit_id == visit_id AND form_id == form_id`. -/
def find_submission (db : Database) (visit_id form_id : Nat) :
    Option FormSubmission :=
  db.form_submissions.find? (fun s =>
    s.visit_id == visit_id && s.form_id == form_id)

/-- The write step inside `_create_form_submission`: `db.add` + `commit` of
a new row.  The `form_submissions` table carries no uniqueness constraint
over `(visit_id, form_id)`, so the insert is a plain append that always
succeeds. -/
def insert_submission (db : Database) (s : FormSubmission) : Database :=
  { db with form_submissions := db.form_submissions ++ [s] }

/-- `AssessmentService._create_form_submission`: get-or-create the form
definition, re-read for an existing `(visit, form)` submission and reuse
it, otherwise insert a fresh one with status `"submitted"`. -/
def create_form_submission (db : Database) (visit_id : Nat)
    (form_type : String) (submitted_by : Nat)
    (fresh_form_id fresh_submission_id : Nat) : Database × FormSubmission :=
  let p := get_or_create_form_definition db form_type fresh_form_id
  match find_submission p.1 visit_id p.2.form_id with
  | some s => (p.1, s)
  | none =>
    let s : FormSubmission :=
      { submission_id := fresh_submission_id, visit_id := visit_id,
        form_id := p.2.form_id, submitted_by := submitted_by,
        submission_status := "submitted" }
    (insert_submission p.1 s, s)

/-- `db.add` + `commit` of a `nursing_assessments` row: the storage layer
enforces the model's `unique=True` on `submission_id` and raises an
`IntegrityError` (untranslated by the service) on a duplicate. -/
def insert_nursing_row (db : Database) (a : NursingAssessment) :
    Except ServiceError Database :=
  if db.nursing_assessments.any (fun x => x.submission_id == a.submission_id) then
    .error (.integrity "UNIQUE constraint failed: nursing_assessments.submission_id")
  else
    .ok { db with nursing_assessments := db.nursing_assessments ++ [a] }

/-- The BMI computed at creation (`create_nursing_assessment`):
`if assessment_data.weight_kg and assessment_data.height_cm:` then
`round(weight / (height/100)**2, 1)`, else `None`.  Python truthiness makes
a present zero behave like an absent value. -/
def bmi_on_create (weight height : Option ℚ) : Option ℚ :=
  if truthyQ weight && truthyQ height then
    some (pyRound1 (weight.getD 0 / (height.getD 0 / 100) ^ 2))
  else
    none

/-- Fresh identities handed to one `create_nursing_assessment` call,
standing for the `uuid4` defaults of the rows it may insert. -/
structure FreshIds where
  form_id : Nat
  submission_id : Nat
  assessment_id : Nat
deriving DecidableEq, Repr

/-- `AssessmentService.create_nursing_assessment`: verify the visit exists
and is OPEN, reject when a nursing assessment already exists for the visit
(`ConflictError` in the specification's taxonomy), lazily create the form
submission, compute the BMI and insert the assessment row. -/
def create_nursing_assessment (db : Database) (data : NursingAssessmentCreate)
    (assessed_by : Nat) (ids : FreshIds) :
    Except ServiceError (Database × NursingAssessment) :=
  match find_open_visit db data.visit_id with
  | none => .error (.notFound "Visit not found or not open for assessment")
  | some _ =>
    match get_nursing_assessment_by_visit db data.visit_id with
    | some _ => .error (.conflict "Nursing assessment already exists for this visit")
    | none =>
      let p := create_form_submission db data.visit_id "nursing" assessed_by
        ids.form_id ids.submission_id
      let a : NursingAssessment :=
        { assessment_id := ids.assessment_id
          submission_id := p.2.submission_id
          temperature_celsius := data.temperature_celsius
          pulse_bpm := data.pulse_bpm
          blood_pressure_systolic := data.blood_pressure_systolic
          blood_pressure_diastolic := data.blood_pressure_diastolic
          respiratory_rate_per_min := data.respiratory_rate_per_min
          oxygen_saturation_percent := data.oxygen_saturation_percent
          pain_assessment := data.pain_assessment
          fall_risk_assessment := data.fall_risk_assessment
          weight_kg := data.weight_kg
          height_cm := data.height_cm
          bmi := bmi_on_create data.weight_kg data.height_cm
          general_condition := data.general_condition
          consciousness_level := data.consciousness_level
          skin_condition := data.skin_condition
          mobility_status := data.mobility_status
          notes := data.notes
          assessed_by := assessed_by }
      match insert_nursing_row p.1 a with
      | .error e => .error e
      | .ok db2 => .ok (db2, a)

/-- `AssessmentService.get_nursing_assessment`:
`SELECT NursingAssessment WHERE assessment_id == assessment_id`. -/
def get_nursing_assessment (db : Database) (assessment_id : Nat) :
    Option NursingAssessment :=
  db.nursing_assessments.find? (fun a => a.assessment_id == assessment_id)

/-- `AssessmentService.get_radiology_assessment`. -/
def get_radiology_assessment (db : Database) (radiology_id : Nat) :
    Option RadiologyAssessment :=
  db.radiology_assessments.find? (fun a => a.radiology_id == radiology_id)

/-- Whether a form submission row links the given submission id to the
given visit row: the join condition
`FormSubmission.submission_id == submission_id AND FormSubmission.visit_id == PatientVisit.id`. -/
def submission_links (db : Database) (submission_id : Nat)
    (v : PatientVisit) : Bool :=
  db.form_submissions.any (fun s =>
    s.submission_id == submission_id && s.visit_id == v.id)

/-- The visit-resolution query of both assessment update methods:
`SELECT PatientVisit JOIN FormSubmission
 WHERE FormSubmission.submission_id == submission_id
 AND PatientVisit.status == OPEN`. -/
def resolve_open_visit (db : Database) (submission_id : Nat) :
    Option PatientVisit :=
  db.visits.find? (fun v => submission_links db submission_id v && v.status == "open")

/-- `if not update_data:` for a nursing patch. -/
def NursingAssessmentUpdate.isEmpty (p : NursingAssessmentUpdate) : Bool :=
  p.temperature_celsius.isNone && p.pulse_bpm.isNone &&
  p.blood_pressure_systolic.isNone && p.blood_pressure_diastolic.isNone &&
  p.respiratory_rate_per_min.isNone && p.oxygen_saturation_percent.isNone &&
  p.pain_assessment.isNone && p.fall_risk_assessment.isNone &&
  p.weight_kg.isNone && p.height_cm.isNone &&
  p.general_condition.isNone && p.consciousness_level.isNone &&
  p.skin_condition.isNone && p.mobility_status.isNone && p.notes.isNone

/-- The BMI recomputation block of `update_nursing_assessment`: it runs
only when `weight_kg` or `height_cm` is a key of the patch, takes each
dimension from the patch when patched and from the stored row otherwise
(`update_data.get(field, assessment.field)`), and writes a new BMI only
when both merged values are truthy; in every other case the stored BMI is
left as it is. -/
def bmi_on_update (p : NursingAssessmentUpdate) (a : NursingAssessment) :
    Option ℚ :=
  if p.weight_kg.isSome || p.height_cm.isSome then
    let weight := mergePatch p.weight_kg a.weight_kg
    let height := mergePatch p.height_cm a.height_cm
    if truthyQ weight && truthyQ height then
      some (pyRound1 (weight.getD 0 / (height.getD 0 / 100) ^ 2))
    else
      a.bmi
  else
    a.bmi

/-- `for field, value in update_data.items(): setattr(assessment, ...)`
applied to a nursing patch, with the recomputed BMI. -/
def applyNursingUpdate (a : NursingAssessment) (p : NursingAssessmentUpdate) :
    NursingAssessment :=
  { a with
    temperature_celsius := mergePatch p.temperature_celsius a.temperature_celsius
    pulse_bpm := mergePatch p.pulse_bpm a.pulse_bpm
    blood_pressure_systolic :=
      mergePatch p.blood_pressure_systolic a.blood_pressure_systolic
    blood_pressure_diastolic :=
      mergePatch p.blood_pressure_diastolic a.blood_pressure_diastolic
    respiratory_rate_per_min :=
      mergePatch p.respiratory_rate_per_min a.respiratory_rate_per_min
    oxygen_saturation_percent :=
      mergePatch p.oxygen_saturation_percent a.oxygen_saturation_percent
    pain_assessment := mergePatch p.pain_assessment a.pain_assessment
    fall_risk_assessment := mergePatch p.fall_risk_assessment a.fall_risk_assessment
    weight_kg := mergePatch p.weight_kg a.weight_kg
    height_cm := mergePatch p.height_cm a.height_cm
    bmi := bmi_on_update p a
    general_condition := mergePatch p.general_condition a.general_condition
    consciousness_level := mergePatch p.consciousness_level a.consciousness_level
    skin_condition := mergePatch p.skin_condition a.skin_condition
    mobility_status := mergePatch p.mobility_status a.mobility_status
    notes := mergePatch p.notes a.notes }

/-- Replace the stored row of a nursing assessment after mutation and
`commit`. -/
def replace_nursing (db : Database) (a : NursingAssessment) : Database :=
  { db with nursing_assessments :=
      db.nursing_assessments.map (fun x => if x.assessment_id == a.assessment_id then a else x) }

/-- `AssessmentService.update_nursing_assessment`: `none` when the
assessment does not exist; `StateError` when the visit resolved through
the form submission is not OPEN (the error is raised before any field is
written); the assessment unchanged on an empty patch; otherwise the patch
is applied with the BMI recomputation and committed. -/
def update_nursing_assessment (db : Database) (assessment_id : Nat)
    (p : NursingAssessmentUpdate) :
    Except ServiceError (Option (Database × NursingAssessment)) :=
  match get_nursing_assessment db assessment_id with
  | none => .ok none
  | some a =>
    match resolve_open_visit db a.submission_id with
    | none =>
      .error (.stateError "Cannot update assessment for completed or cancelled visit")
    | some _ =>
      if p.isEmpty then .ok (some (db, a))
      else
        let a2 := applyNursingUpdate a p
        .ok (some (replace_nursing db a2, a2))

/-- `if not update_data:` for a radiology patch. -/
def RadiologyAssessmentUpdate.isEmpty (p : RadiologyAssessmentUpdate) : Bool :=
  p.findings.isNone && p.diagnosis.isNone && p.recommendations.isNone &&
  p.modality.isNone && p.body_region.isNone && p.contrast_used.isNone

/-- `setattr` application of a radiology patch. -/
def applyRadiologyUpdate (a : RadiologyAssessment)
    (p : RadiologyAssessmentUpdate) : RadiologyAssessment :=
  { a with
    findings := p.findings.getD a.findings
    diagnosis := mergePatch p.diagnosis a.diagnosis
    recommendations := mergePatch p.recommendations a.recommendations
    modality := mergePatch p.modality a.modality
    body_region := mergePatch p.body_region a.body_region
    contrast_used := mergePatch p.contrast_used a.contrast_used }

/-- Replace the stored row of a radiology assessment. -/
def replace_radiology (db : Database) (a : RadiologyAssessment) : Database :=
  { db with radiology_assessments :=
      db.radiology_assessments.map (fun x => if x.radiology_id == a.radiology_id then a else x) }

/-- `AssessmentService.update_radiology_assessment`: same structure as the
nursing update, without BMI. -/
def update_radiology_assessment (db : Database) (radiology_id : Nat)
    (p : RadiologyAssessmentUpdate) :
    Except ServiceError (Option (Database × RadiologyAssessment)) :=
  match get_radiology_assessment db radiology_id with
  | none => .ok none
  | some a =>
    match resolve_open_visit db a.submission_id with
    | none =>
      .error (.stateError "Cannot update assessment for completed or cancelled visit")
    | some _ =>
      if p.isEmpty then .ok (some (db, a))
      else
        let a2 := applyRadiologyUpdate a p
        .ok (some (replace_radiology db a2, a2))

/-- `AuditService.should_log_action` set literals. -/
def sensitive_actions : List String := ["CREATE", "UPDATE", "DELETE"]

/-- PHI resource types as listed in the source:
`{"patient", "assessment", "document"}`. -/
def phi_resources : List String := ["patient", "assessment", "document"]

/-- Authentication actions: `{"LOGIN", "LOGOUT", "TOKEN_REFRESH"}`. -/
def auth_actions : List String := ["LOGIN", "LOGOUT", "TOKEN_REFRESH"]

/-- `AuditService.should_log_action` (`app/services/audit_service.py`):
the four guard clauses in source order — sensitive actions, PHI resource
types, authentication actions, admin actions on user accounts — else
`False`. -/
def should_log_action (action resource_type : String) : Bool :=
  if action ∈ sensitive_actions then true
  else if resource_type ∈ phi_resources then true
  else if action ∈ auth_actions then true
  else if resource_type = "user" ∧ action ∈ sensitive_actions then true
  else false

/-! ## Concrete fixtures -/

/-- An OPEN visit with no assessments of either kind. -/
def c1Visit : PatientVisit :=
  { id := 1, patient_id := 1, status := "open", visit_date := 0,
    chief_complaint := none, notes := none }

/-- A database holding only `c1Visit`. -/
def c1Db : Database :=
  { visits := [c1Visit], form_definitions := [], form_submissions := [],
    nursing_assessments := [], radiology_assessments := [] }

/-- `c1Visit` after the COMPLETED transition. -/
def c1VisitCompleted : PatientVisit :=
  { c1Visit with status := "completed" }

/-- `c1Db` after `complete_visit` commits. -/
def c1DbAfter : Database :=
  { c1Db with visits := [c1VisitCompleted] }

/-- C1: for `c1Db`, whose only visit is OPEN with neither a nursing nor a
radiology assessment, the Completion Gate reports incomplete, yet
`complete_visit` does not fail with a `PreconditionError`: it never
consults `can_complete_visit` and commits the transition, leaving the
visit COMPLETED.  This refutes the claimed gate enforcement and documents
the divergence the specification itself flags (section 9): the claim
describes the intended behaviour, the code omits the gate. -/
theorem complete_visit_bypasses_completion_gate :
    can_complete_visit c1Db 1 = false ∧
    complete_visit c1Db 1 = Except.ok (some (c1DbAfter, c1VisitCompleted)) ∧
    c1VisitCompleted.status = VisitStatus.COMPLETED :=
  ⟨rfl, rfl, rfl⟩

/-- C2: the transition relation is exactly the specified table — from OPEN
only COMPLETED and CANCELLED, from COMPLETED only OPEN, from CANCELLED
nothing — and any `update_visit` that asks for a status change on a
CANCELLED visit is rejected with the `StateError` raise
(`"Cannot transition from ... to ..."`) before anything is written, so the
stored status remains CANCELLED (the returned error carries no new
database state). -/
theorem visit_status_transition_table (db : Database) (vid : Nat)
    (v : PatientVisit) (u : VisitUpdate) (t : String)
    (hv : get_visit db vid = some v) (hcanc : v.status = "cancelled")
    (ht : u.status = some t) :
    (∀ s s2 : String, can_transition_to s s2 = true ↔
      (s = "open" ∧ (s2 = "completed" ∨ s2 = "cancelled")) ∨
      (s = "completed" ∧ s2 = "open")) ∧
    update_visit db vid u =
      Except.error (ServiceError.stateError
        ("Cannot transition from cancelled to " ++ t)) := by
  constructor
  · intro s s2
    simp only [can_transition_to, transitions]
    split_ifs with h1 h2 h3
    · simp_all [List.any_eq_true, beq_iff_eq]
      exact or_congr eq_comm eq_comm
    · simp_all [List.any_eq_true, beq_iff_eq]
      exact eq_comm
    · simp_all [List.any_eq_true, beq_iff_eq]
    · simp_all [List.any_eq_true, beq_iff_eq]
  · have hne : u.isEmpty = false := by
      simp [VisitUpdate.isEmpty, ht]
    have hct : can_transition_to v.status t = false := by
      rw [hcanc]; rfl
    rw [hcanc] at hct
    simp [update_visit, hv, hne, ht, hct, hcanc]

/-- A CANCELLED visit for the C2 witness. -/
def c2Visit : PatientVisit :=
  { id := 2, patient_id := 1, status := "cancelled", visit_date := 0,
    chief_complaint := none, notes := none }

/-- A database holding only `c2Visit`. -/
def c2Db : Database :=
  { visits := [c2Visit], form_definitions := [], form_submissions := [],
    nursing_assessments := [], radiology_assessments := [] }

/-- Witness for C2 at concrete inputs: OPEN → COMPLETED is allowed by the
table, and reopening the CANCELLED visit `c2Visit` is rejected with the
`StateError`. -/
theorem visit_status_transition_table_witness :
    can_transition_to "open" "completed" = true ∧
    update_visit c2Db 2 { status := some "open" } =
      Except.error (ServiceError.stateError
        "Cannot transition from cancelled to open") := by
  have h := visit_status_transition_table c2Db 2 c2Visit
    { status := some "open" } "open" rfl rfl rfl
  constructor
  · exact (h.1 "open" "completed").mpr (Or.inl ⟨rfl, Or.inl rfl⟩)
  · simpa using h.2

/-- The open-visit resolution fails when every visit the submission links
to is COMPLETED or CANCELLED. -/
theorem resolve_open_visit_eq_none (db : Database) (sid : Nat)
    (hclosed : ∀ v ∈ db.visits, submission_links db sid v = true →
      v.status = "completed" ∨ v.status = "cancelled") :
    resolve_open_visit db sid = none := by
  rw [resolve_open_visit, List.find?_eq_none]
  intro v hvmem
  simp only [Bool.and_eq_true, beq_iff_eq, not_and]
  intro hlink hstat
  rcases hclosed v hvmem hlink with h | h <;> simp [h] at hstat

/-- C4: when every visit resolved through an assessment's form submission
is COMPLETED or CANCELLED, both `update_nursing_assessment` and
`update_radiology_assessment` fail with the `StateError`
`"Cannot update assessment for completed or cancelled visit"`; the error
is returned before the patch is applied, so no new database state is
produced and the stored assessments are unchanged. -/
theorem update_assessment_rejected_on_closed_visit
    (db : Database) (aid rid : Nat)
    (p : NursingAssessmentUpdate) (q : RadiologyAssessmentUpdate)
    (a : NursingAssessment) (r : RadiologyAssessment)
    (ha : get_nursing_assessment db aid = some a)
    (hr : get_radiology_assessment db rid = some r)
    (hclosedN : ∀ v ∈ db.visits, submission_links db a.submission_id v = true →
      v.status = "completed" ∨ v.status = "cancelled")
    (hclosedR : ∀ v ∈ db.visits, submission_links db r.submission_id v = true →
      v.status = "completed" ∨ v.status = "cancelled") :
    update_nursing_assessment db aid p =
      Except.error (ServiceError.stateError
        "Cannot update assessment for completed or cancelled visit") ∧
    update_radiology_assessment db rid q =
      Except.error (ServiceError.stateError
        "Cannot update assessment for completed or cancelled visit") := by
  constructor
  · have hnone := resolve_open_visit_eq_none db a.submission_id hclosedN
    simp [update_nursing_assessment, ha, hnone]
  · have hnone := resolve_open_visit_eq_none db r.submission_id hclosedR
    simp [update_radiology_assessment, hr, hnone]

/-- A COMPLETED visit for the C4 witness. -/
def c4Visit : PatientVisit :=
  { id := 3, patient_id := 1, status := "completed", visit_date := 0,
    chief_complaint := none, notes := none }

/-- Nursing form submission bound to `c4Visit`. -/
def c4SubN : FormSubmission :=
  { submission_id := 30, visit_id := 3, form_id := 10, submitted_by := 5,
    submission_status := "submitted" }

/-- Radiology form submission bound to `c4Visit`. -/
def c4SubR : FormSubmission :=
  { submission_id := 31, visit_id := 3, form_id := 11, submitted_by := 5,
    submission_status := "submitted" }

/-- Stored nursing assessment for the C4 witness. -/
def c4Nursing : NursingAssessment :=
  { assessment_id := 40, submission_id := 30,
    temperature_celsius := some 37, pulse_bpm := none,
    blood_pressure_systolic := none, blood_pressure_diastolic := none,
    respiratory_rate_per_min := none, oxygen_saturation_percent := none,
    pain_assessment := none, fall_risk_assessment := none,
    weight_kg := none, height_cm := none, bmi := none,
    general_condition := none, consciousness_level := none,
    skin_condition := none, mobility_status := none, notes := none,
    assessed_by := 5 }

/-- Stored radiology assessment for the C4 witness. -/
def c4Radiology : RadiologyAssessment :=
  { radiology_id := 41, submission_id := 31,
    findings := "No acute abnormality seen.", diagnosis := none,
    recommendations := none, modality := none, body_region := none,
    contrast_used := none, assessed_by := 5 }

/-- Database for the C4 witness: both assessments hang off the COMPLETED
visit `c4Visit`. -/
def c4Db : Database :=
  { visits := [c4Visit], form_definitions := [],
    form_submissions := [c4SubN, c4SubR],
    nursing_assessments := [c4Nursing], radiology_assessments := [c4Radiology] }

/-- Witness for C4 at concrete inputs: patching either assessment of the
COMPLETED visit fails with the `StateError`. -/
theorem update_assessment_rejected_witness :
    update_nursing_assessment c4Db 40 { notes := some "late edit" } =
      Except.error (ServiceError.stateError
        "Cannot update assessment for completed or cancelled visit") ∧
    update_radiology_assessment c4Db 41 { diagnosis := some "late addition dx" } =
      Except.error (ServiceError.stateError
        "Cannot update assessment for completed or cancelled visit") :=
  update_assessment_rejected_on_closed_visit c4Db 40 41
    { notes := some "late edit" } { diagnosis := some "late addition dx" }
    c4Nursing c4Radiology rfl rfl (by decide) (by decide)

/-- C5: whenever `create_nursing_assessment` succeeds on schema-valid input
(the pydantic bounds, in particular 0 < weight ≤ 500 and 0 < height ≤ 300
for the supplied measurements), the stored BMI is
`round(weight / (height/100)^2, 1)` when both measurements are supplied
and absent when either is missing. -/
theorem create_nursing_bmi_formula (db : Database)
    (data : NursingAssessmentCreate) (u : Nat) (ids : FreshIds)
    (db2 : Database) (a : NursingAssessment)
    (hvalid : validNursingCreate data = true)
    (hc : create_nursing_assessment db data u ids = Except.ok (db2, a)) :
    (∀ w h : ℚ, data.weight_kg = some w → data.height_cm = some h →
      a.bmi = some (pyRound1 (w / (h / 100) ^ 2))) ∧
    ((data.weight_kg = none ∨ data.height_cm = none) → a.bmi = none) := by
  have hbmi : a.bmi = bmi_on_create data.weight_kg data.height_cm := by
    unfold create_nursing_assessment at hc
    split at hc
    · exact absurd hc (by simp)
    · split at hc
      · exact absurd hc (by simp)
      · dsimp only at hc
        split at hc
        · exact absurd hc (by simp)
        · rw [Except.ok.injEq, Prod.mk.injEq] at hc
          rw [← hc.2]
  constructor
  · intro w h hw hh
    have hwpos : (0 : ℚ) < w := by
      have h2 := hvalid
      simp [validNursingCreate, hw] at h2
      tauto
    have hhpos : (0 : ℚ) < h := by
      have h2 := hvalid
      simp [validNursingCreate, hh] at h2
      tauto
    rw [hbmi]
    simp [bmi_on_create, hw, hh, truthyQ, ne_of_gt hwpos, ne_of_gt hhpos]
  · intro habs
    rw [hbmi]
    rcases habs with h | h <;> simp [bmi_on_create, h, truthyQ]

/-- Creation payload for the C5 witness: weight 70 kg, height 175 cm. -/
def c5Data : NursingAssessmentCreate :=
  { visit_id := 1, weight_kg := some 70, height_cm := some 175 }

/-- Fresh row identities for the C5 witness. -/
def c5Ids : FreshIds := { form_id := 10, submission_id := 100, assessment_id := 200 }

/-- The row `create_nursing_assessment` inserts for `c5Data`. -/
def c5Row : NursingAssessment :=
  { assessment_id := 200, submission_id := 100,
    temperature_celsius := none, pulse_bpm := none,
    blood_pressure_systolic := none, blood_pressure_diastolic := none,
    respiratory_rate_per_min := none, oxygen_saturation_percent := none,
    pain_assessment := none, fall_risk_assessment := none,
    weight_kg := some 70, height_cm := some 175,
    bmi := bmi_on_create (some 70) (some 175),
    general_condition := none, consciousness_level := none,
    skin_condition := none, mobility_status := none, notes := none,
    assessed_by := 7 }

/-- The form definition `_get_or_create_form_definition` creates for the
C5 witness. -/
def c5FormDef : FormDefinition :=
  { form_id := 10, form_type := "nursing", is_active := "active" }

/-- The form submission `_create_form_submission` inserts for the C5
witness. -/
def c5Sub : FormSubmission :=
  { submission_id := 100, visit_id := 1, form_id := 10, submitted_by := 7,
    submission_status := "submitted" }

/-- `c1Db` after the C5 creation commits. -/
def c5Db2 : Database :=
  { visits := [c1Visit], form_definitions := [c5FormDef],
    form_submissions := [c5Sub], nursing_assessments := [c5Row],
    radiology_assessments := [] }

/-- Witness for C5 at the concrete input weight = 70 kg, height = 175 cm:
the creation succeeds and stores BMI 22.9. -/
theorem create_nursing_bmi_witness :
    create_nursing_assessment c1Db c5Data 7 c5Ids = Except.ok (c5Db2, c5Row) ∧
    c5Row.bmi = some (229 / 10) := by
  have hc : create_nursing_assessment c1Db c5Data 7 c5Ids =
      Except.ok (c5Db2, c5Row) := rfl
  refine ⟨hc, ?_⟩
  have h := (create_nursing_bmi_formula c1Db c5Data 7 c5Ids c5Db2 c5Row
    (by decide) hc).1 70 175 rfl rfl
  rw [h]
  norm_num [pyRound1, roundHalfEven]

/-- Case analysis of a successful `update_nursing_assessment`: on an empty
patch the stored row is returned untouched, otherwise the result is the
stored row with the patch applied. -/
theorem update_nursing_assessment_ok_cases (db : Database) (aid : Nat)
    (p : NursingAssessmentUpdate) (db2 : Database) (a0 a2 : NursingAssessment)
    (ha : get_nursing_assessment db aid = some a0)
    (hupd : update_nursing_assessment db aid p = Except.ok (some (db2, a2))) :
    (p.isEmpty = true ∧ a2 = a0) ∨
    (p.isEmpty = false ∧ a2 = applyNursingUpdate a0 p) := by
  unfold update_nursing_assessment at hupd
  rw [ha] at hupd
  split at hupd
  next hEq => simp at hEq
  next a hEq =>
    obtain rfl : a = a0 := by
      have h2 := hEq.symm
      rw [Option.some.injEq] at h2
      exact h2
    split at hupd
    · simp at hupd
    · split at hupd
      next hE =>
        simp only [Except.ok.injEq, Option.some.injEq, Prod.mk.injEq] at hupd
        exact Or.inl ⟨hE, hupd.2.symm⟩
      next hE =>
        simp only [Except.ok.injEq, Option.some.injEq, Prod.mk.injEq] at hupd
        exact Or.inr ⟨by simpa using hE, hupd.2.symm⟩

/-- C6: on a successful nursing-assessment update whose patch contains
`weight_kg` or `height_cm`, the stored BMI is recomputed as
`round(w / (h/100)^2, 1)` from the patched value merged with the stored
value of the other dimension (whenever both merged values are present and
nonzero, which schema validation guarantees for every value the system can
store); and when neither dimension is patched the BMI is left exactly as
stored — no patch field writes it directly (the update schema has no BMI
field). -/
theorem update_nursing_bmi_recomputation (db : Database) (aid : Nat)
    (p : NursingAssessmentUpdate) (db2 : Database) (a0 a2 : NursingAssessment)
    (ha : get_nursing_assessment db aid = some a0)
    (hupd : update_nursing_assessment db aid p = Except.ok (some (db2, a2))) :
    (∀ w h : ℚ, mergePatch p.weight_kg a0.weight_kg = some w →
      mergePatch p.height_cm a0.height_cm = some h →
      (p.weight_kg.isSome || p.height_cm.isSome) = true →
      w ≠ 0 → h ≠ 0 →
      a2.bmi = some (pyRound1 (w / (h / 100) ^ 2))) ∧
    (p.weight_kg = none → p.height_cm = none → a2.bmi = a0.bmi) := by
  rcases update_nursing_assessment_ok_cases db aid p db2 a0 a2 ha hupd with
    ⟨hE, rfl⟩ | ⟨hE, rfl⟩
  · constructor
    · intro w h hw hh hsome hw0 hh0
      have : p.weight_kg = none ∧ p.height_cm = none := by
        simp [NursingAssessmentUpdate.isEmpty] at hE
        tauto
      rw [this.1, this.2] at hsome
      simp at hsome
    · intro _ _
      rfl
  · constructor
    · intro w h hw hh hsome hw0 hh0
      show bmi_on_update p a0 = _
      rw [bmi_on_update, if_pos hsome]
      simp only [hw, hh]
      simp [truthyQ, hw0, hh0]
    · intro hwn hhn
      show bmi_on_update p a0 = a0.bmi
      rw [bmi_on_update, if_neg]
      rw [hwn, hhn]
      simp

/-- An OPEN visit for the C6 witness. -/
def c6Visit : PatientVisit :=
  { id := 4, patient_id := 1, status := "open", visit_date := 0,
    chief_complaint := none, notes := none }

/-- Nursing form submission bound to `c6Visit`. -/
def c6Sub : FormSubmission :=
  { submission_id := 60, visit_id := 4, form_id := 10, submitted_by := 5,
    submission_status := "submitted" }

/-- Stored nursing assessment for the C6 witness: weight 70 kg, height
175 cm, BMI 22.9. -/
def c6A0 : NursingAssessment :=
  { assessment_id := 50, submission_id := 60,
    temperature_celsius := none, pulse_bpm := none,
    blood_pressure_systolic := none, blood_pressure_diastolic := none,
    respiratory_rate_per_min := none, oxygen_saturation_percent := none,
    pain_assessment := none, fall_risk_assessment := none,
    weight_kg := some 70, height_cm := some 175, bmi := some (229 / 10),
    general_condition := none, consciousness_level := none,
    skin_condition := none, mobility_status := none, notes := none,
    assessed_by := 5 }

/-- Database for the C6 witness. -/
def c6Db : Database :=
  { visits := [c6Visit], form_definitions := [], form_submissions := [c6Sub],
    nursing_assessments := [c6A0], radiology_assessments := [] }

/-- Patch for the C6 witness: only the weight changes, to 80 kg. -/
def c6Patch : NursingAssessmentUpdate := { weight_kg := some 80 }

/-- The assessment after the C6 patch. -/
def c6A2 : NursingAssessment := applyNursingUpdate c6A0 c6Patch

/-- `c6Db` after the C6 update commits. -/
def c6Db2 : Database := replace_nursing c6Db c6A2

/-- Witness for C6 at a concrete input: patching weight to 80 kg against
stored height 175 cm recomputes BMI to 26.1. -/
theorem update_nursing_bmi_witness :
    update_nursing_assessment c6Db 50 c6Patch = Except.ok (some (c6Db2, c6A2)) ∧
    c6A2.bmi = some (261 / 10) := by
  have hupd : update_nursing_assessment c6Db 50 c6Patch =
      Except.ok (some (c6Db2, c6A2)) := rfl
  refine ⟨hupd, ?_⟩
  have h := (update_nursing_bmi_recomputation c6Db 50 c6Patch c6Db2 c6A0 c6A2
    rfl hupd).1 80 175 rfl rfl rfl (by norm_num) (by norm_num)
  rw [h]
  norm_num [pyRound1, roundHalfEven]

/-- C9: a successful nursing-assessment update writes exactly the patched
fields — every field is the patch value when present and the stored value
when absent (`mergePatch`), the row identity, submission binding and
assessor are untouched, and BMI (the one derived field) is untouched
whenever neither weight nor height is patched. -/
theorem update_nursing_partial_update_frame (db : Database) (aid : Nat)
    (p : NursingAssessmentUpdate) (db2 : Database) (a0 a2 : NursingAssessment)
    (ha : get_nursing_assessment db aid = some a0)
    (hupd : update_nursing_assessment db aid p = Except.ok (some (db2, a2))) :
    a2.temperature_celsius = mergePatch p.temperature_celsius a0.temperature_celsius ∧
    a2.pulse_bpm = mergePatch p.pulse_bpm a0.pulse_bpm ∧
    a2.blood_pressure_systolic =
      mergePatch p.blood_pressure_systolic a0.blood_pressure_systolic ∧
    a2.blood_pressure_diastolic =
      mergePatch p.blood_pressure_diastolic a0.blood_pressure_diastolic ∧
    a2.respiratory_rate_per_min =
      mergePatch p.respiratory_rate_per_min a0.respiratory_rate_per_min ∧
    a2.oxygen_saturation_percent =
      mergePatch p.oxygen_saturation_percent a0.oxygen_saturation_percent ∧
    a2.pain_assessment = mergePatch p.pain_assessment a0.pain_assessment ∧
    a2.fall_risk_assessment = mergePatch p.fall_risk_assessment a0.fall_risk_assessment ∧
    a2.weight_kg = mergePatch p.weight_kg a0.weight_kg ∧
    a2.height_cm = mergePatch p.height_cm a0.height_cm ∧
    a2.general_condition = mergePatch p.general_condition a0.general_condition ∧
    a2.consciousness_level = mergePatch p.consciousness_level a0.consciousness_level ∧
    a2.skin_condition = mergePatch p.skin_condition a0.skin_condition ∧
    a2.mobility_status = mergePatch p.mobility_status a0.mobility_status ∧
    a2.notes = mergePatch p.notes a0.notes ∧
    a2.assessment_id = a0.assessment_id ∧
    a2.submission_id = a0.submission_id ∧
    a2.assessed_by = a0.assessed_by ∧
    (p.weight_kg = none → p.height_cm = none → a2.bmi = a0.bmi) := by
  rcases update_nursing_assessment_ok_cases db aid p db2 a0 a2 ha hupd with
    ⟨hE, rfl⟩ | ⟨hE, rfl⟩
  · simp only [NursingAssessmentUpdate.isEmpty, Bool.and_eq_true,
      Option.isNone_iff_eq_none] at hE
    obtain ⟨⟨⟨⟨⟨⟨⟨⟨⟨⟨⟨⟨⟨⟨e1, e2⟩, e3⟩, e4⟩, e5⟩, e6⟩, e7⟩, e8⟩, e9⟩,
      e10⟩, e11⟩, e12⟩, e13⟩, e14⟩, e15⟩ := hE
    simp [e1, e2, e3, e4, e5, e6, e7, e8, e9, e10, e11, e12, e13, e14, e15]
  · refine ⟨rfl, rfl, rfl, rfl, rfl, rfl, rfl, rfl, rfl, rfl, rfl, rfl, rfl,
      rfl, rfl, rfl, rfl, rfl, ?_⟩
    intro hwn hhn
    show bmi_on_update p a0 = a0.bmi
    simp [bmi_on_update, hwn, hhn]

/-- Patch for the C9 witness: only `notes` is present. -/
def c9Patch : NursingAssessmentUpdate := { notes := some "recheck vitals" }

/-- The assessment after the C9 patch. -/
def c9A2 : NursingAssessment := applyNursingUpdate c6A0 c9Patch

/-- `c6Db` after the C9 update commits. -/
def c9Db2 : Database := replace_nursing c6Db c9A2

/-- Witness for C9 at a concrete input: patching only `notes` leaves the
measurements and the BMI exactly as stored and writes the new note. -/
theorem update_nursing_frame_witness :
    update_nursing_assessment c6Db 50 c9Patch = Except.ok (some (c9Db2, c9A2)) ∧
    c9A2.weight_kg = some 70 ∧ c9A2.height_cm = some 175 ∧
    c9A2.bmi = some (229 / 10) ∧ c9A2.notes = some "recheck vitals" := by
  have hupd : update_nursing_assessment c6Db 50 c9Patch =
      Except.ok (some (c9Db2, c9A2)) := rfl
  obtain ⟨h1, h2, h3, h4, h5, h6, h7, h8, h9, h10, h11, h12, h13, h14, h15,
    h16, h17, h18, h19⟩ :=
    update_nursing_partial_update_frame c6Db 50 c9Patch c9Db2 c6A0 c9A2 rfl hupd
  exact ⟨hupd, by simpa using h9, by simpa using h10, h19 rfl rfl, by simpa using h15⟩

/-- C7: for every nursing assessment whose present vitals lie in the
schema-validated ranges (temperature 30–45 °C, pulse 30–200 bpm, oxygen
saturation 70–100 % — every value the system can store passes these
bounds, which in particular excludes the zero values Python truthiness
would silently skip), `is_critical_vitals` is true exactly when
temperature < 35 or > 40, pulse < 50 or > 150, or oxygen saturation < 90;
absent vitals never trigger it. -/
theorem is_critical_vitals_characterization (a : NursingAssessment)
    (ht : ∀ t : ℚ, a.temperature_celsius = some t → 30 ≤ t ∧ t ≤ 45)
    (hp : ∀ x : ℤ, a.pulse_bpm = some x → 30 ≤ x ∧ x ≤ 200)
    (hs : ∀ s : ℚ, a.oxygen_saturation_percent = some s → 70 ≤ s ∧ s ≤ 100) :
    is_critical_vitals a = true ↔
      (∃ t : ℚ, a.temperature_celsius = some t ∧ (t < 35 ∨ 40 < t)) ∨
      (∃ x : ℤ, a.pulse_bpm = some x ∧ (x < 50 ∨ 150 < x)) ∨
      (∃ s : ℚ, a.oxygen_saturation_percent = some s ∧ s < 90) := by
  simp only [is_critical_vitals, Bool.or_eq_true]
  rw [or_assoc]
  refine or_congr ?_ (or_congr ?_ ?_)
  · rcases hta : a.temperature_celsius with _ | t
    · simp [truthyQ, hta]
    · have h30 := (ht t hta).1
      have ht0 : ¬ t = 0 := by intro h; rw [h] at h30; norm_num at h30
      simp [truthyQ, hta, ht0]
  · rcases hpa : a.pulse_bpm with _ | x
    · simp [truthyZ, hpa]
    · have h30 := (hp x hpa).1
      have hx0 : ¬ x = 0 := by omega
      simp [truthyZ, hpa, hx0]
  · rcases hsa : a.oxygen_saturation_percent with _ | s
    · simp [truthyQ, hsa]
    · have h70 := (hs s hsa).1
      have hs0 : ¬ s = 0 := by intro h; rw [h] at h70; norm_num at h70
      simp [truthyQ, hsa, hs0]

/-- Nursing assessment with temperature 41 °C for the C7 witness. -/
def c7Hot : NursingAssessment :=
  { c4Nursing with assessment_id := 51, temperature_celsius := some 41 }

/-- Nursing assessment with temperature 37 °C and no other vitals for the
C7 witness. -/
def c7Normal : NursingAssessment :=
  { c4Nursing with assessment_id := 52, temperature_celsius := some 37 }

/-- Witness for C7 at concrete inputs: temperature 41 °C triggers the
critical flag, temperature 37 °C alone does not. -/
theorem is_critical_vitals_witness :
    is_critical_vitals c7Hot = true ∧ is_critical_vitals c7Normal = false := by
  constructor
  · exact (is_critical_vitals_characterization c7Hot
      (by intro t h
          obtain rfl : (41 : ℚ) = t := by simpa [c7Hot, c4Nursing] using h
          norm_num)
      (by intro x h; simp [c7Hot, c4Nursing] at h)
      (by intro s h; simp [c7Hot, c4Nursing] at h)).mpr
      (Or.inl ⟨41, rfl, Or.inr (by norm_num)⟩)
  · have h := is_critical_vitals_characterization c7Normal
      (by intro t h
          obtain rfl : (37 : ℚ) = t := by simpa [c7Normal, c4Nursing] using h
          norm_num)
      (by intro x h; simp [c7Normal, c4Nursing] at h)
      (by intro s h; simp [c7Normal, c4Nursing] at h)
    rcases hcrit : is_critical_vitals c7Normal
    · rfl
    · have h2 := h.mp hcrit
      rcases h2 with ⟨t, h3, h4⟩ | ⟨x, h3, h4⟩ | ⟨s, h3, h4⟩
      · obtain rfl : (37 : ℚ) = t := by simpa [c7Normal, c4Nursing] using h3
        rcases h4 with h5 | h5 <;> norm_num at h5
      · simp [c7Normal, c4Nursing] at h3
      · simp [c7Normal, c4Nursing] at h3

/-- Counterexample to C8 as stated: a read of a visit is not logged.  The
claim lists `visit` among the PHI-bearing resource types for which
`shouldLog` always returns true, but the source's PHI set is
`{"patient", "assessment", "document"}` — it does not contain `"visit"` —
so `shouldLog("READ", "visit")` is false. -/
theorem should_log_read_visit_false :
    should_log_action "READ" "visit" = false := by decide

/-- C8 (amended): `shouldLog` returns true exactly for CREATE/UPDATE/
DELETE actions, for the PHI-bearing resource types patient, assessment
and document (visit is not among them), and for the authentication events
LOGIN, LOGOUT and TOKEN_REFRESH; admin actions on user accounts are the
CREATE/UPDATE/DELETE cases already covered by the first clause.  In every
other case it returns false. -/
theorem should_log_action_characterization (action resource_type : String) :
    should_log_action action resource_type = true ↔
      (action = "CREATE" ∨ action = "UPDATE" ∨ action = "DELETE") ∨
      (resource_type = "patient" ∨ resource_type = "assessment" ∨
        resource_type = "document") ∨
      (action = "LOGIN" ∨ action = "LOGOUT" ∨ action = "TOKEN_REFRESH") := by
  simp only [should_log_action, sensitive_actions, phi_resources, auth_actions]
  split_ifs with h1 h2 h3 h4 <;> simp_all

/-- An OPEN visit for the C10 witness scenario. -/
def c10Visit : PatientVisit :=
  { id := 5, patient_id := 2, status := "open", visit_date := 0,
    chief_complaint := none, notes := none }

/-- Nursing form submission bound to `c10Visit`. -/
def c10Sub : FormSubmission :=
  { submission_id := 61, visit_id := 5, form_id := 10, submitted_by := 5,
    submission_status := "submitted" }

/-- Stored nursing assessment with blood pressure 120/80. -/
def c10A0 : NursingAssessment :=
  { assessment_id := 55, submission_id := 61,
    temperature_celsius := none, pulse_bpm := none,
    blood_pressure_systolic := some 120, blood_pressure_diastolic := some 80,
    respiratory_rate_per_min := none, oxygen_saturation_percent := none,
    pain_assessment := none, fall_risk_assessment := none,
    weight_kg := none, height_cm := none, bmi := none,
    general_condition := none, consciousness_level := none,
    skin_condition := none, mobility_status := none, notes := none,
    assessed_by := 5 }

/-- Database for the C10 scenario. -/
def c10Db : Database :=
  { visits := [c10Visit], form_definitions := [], form_submissions := [c10Sub],
    nursing_assessments := [c10A0], radiology_assessments := [] }

/-- Patch carrying only a diastolic value of 140 mmHg (inside the 40–150
field range). -/
def c10Patch : NursingAssessmentUpdate := { blood_pressure_diastolic := some 140 }

/-- The assessment after the C10 patch. -/
def c10A2 : NursingAssessment := applyNursingUpdate c10A0 c10Patch

/-- `c10Db` after the C10 update commits. -/
def c10Db2 : Database := replace_nursing c10Db c10A2

/-- C10: the blood-pressure validator of `NursingAssessmentUpdate` accepts
every patch whose systolic field is absent, whatever diastolic value it
carries — the systolic > diastolic comparison runs only when both appear
in the same patch and never consults the stored assessment.  Concretely,
patching only diastolic to 140 on an assessment stored with 120/80 passes
schema validation, the update succeeds, and the stored row ends with
diastolic 140 ≥ systolic 120. -/
theorem diastolic_only_patch_unchecked :
    (∀ p : NursingAssessmentUpdate, p.blood_pressure_systolic = none →
      bp_relational_ok p.blood_pressure_systolic p.blood_pressure_diastolic = true) ∧
    validNursingUpdate c10Patch = true ∧
    update_nursing_assessment c10Db 55 c10Patch = Except.ok (some (c10Db2, c10A2)) ∧
    c10A2.blood_pressure_systolic = some 120 ∧
    c10A2.blood_pressure_diastolic = some 140 := by
  refine ⟨?_, by decide, rfl, rfl, rfl⟩
  intro p h
  rcases hd : p.blood_pressure_diastolic with _ | d <;> simp [bp_relational_ok, h, hd]

/-- Witness for C10's universally quantified part at a concrete patch: the
validator's relational clause accepts the diastolic-only patch. -/
theorem diastolic_only_patch_unchecked_witness :
    bp_relational_ok c10Patch.blood_pressure_systolic
      c10Patch.blood_pressure_diastolic = true :=
  diastolic_only_patch_unchecked.1 c10Patch rfl

/-- How many nursing assessments are joined (via form submissions) to a
visit. -/
def nursing_count_for_visit (db : Database) (visit_id : Nat) : Nat :=
  (db.nursing_assessments.filter (fun a =>
    db.form_submissions.any (fun s =>
      s.submission_id == a.submission_id && s.visit_id == visit_id))).length

/-- An OPEN visit contended by two concurrent creators. -/
def raceVisit : PatientVisit :=
  { id := 6, patient_id := 3, status := "open", visit_date := 0,
    chief_complaint := none, notes := none }

/-- The active nursing form definition in the race scenario. -/
def raceFormDef : FormDefinition :=
  { form_id := 12, form_type := "nursing", is_active := "active" }

/-- Initial state of the race: the visit exists and is OPEN, no submission
and no assessment of either kind. -/
def raceDb0 : Database :=
  { visits := [raceVisit], form_definitions := [raceFormDef],
    form_submissions := [], nursing_assessments := [], radiology_assessments := [] }

/-- Creation payload used by both concurrent requests. -/
def raceData : NursingAssessmentCreate := { visit_id := 6 }

/-- Fresh identities of request A. -/
def raceIdsA : FreshIds := { form_id := 90, submission_id := 110, assessment_id := 210 }

/-- Fresh identities of request B. -/
def raceIdsB : FreshIds := { form_id := 91, submission_id := 111, assessment_id := 211 }

/-- The form submission request A inserts. -/
def raceSubA : FormSubmission :=
  { submission_id := 110, visit_id := 6, form_id := 12, submitted_by := 8,
    submission_status := "submitted" }

/-- The form submission request B inserts. -/
def raceSubB : FormSubmission :=
  { submission_id := 111, visit_id := 6, form_id := 12, submitted_by := 9,
    submission_status := "submitted" }

/-- State after A's submission insert. -/
def raceDb1 : Database := insert_submission raceDb0 raceSubA

/-- State after B's submission insert. -/
def raceDb2 : Database := insert_submission raceDb1 raceSubB

/-- The nursing row request A inserts. -/
def raceRowA : NursingAssessment :=
  { assessment_id := 210, submission_id := 110,
    temperature_celsius := none, pulse_bpm := none,
    blood_pressure_systolic := none, blood_pressure_diastolic := none,
    respiratory_rate_per_min := none, oxygen_saturation_percent := none,
    pain_assessment := none, fall_risk_assessment := none,
    weight_kg := none, height_cm := none, bmi := bmi_on_create none none,
    general_condition := none, consciousness_level := none,
    skin_condition := none, mobility_status := none, notes := none,
    assessed_by := 8 }

/-- The nursing row request B inserts. -/
def raceRowB : NursingAssessment :=
  { raceRowA with assessment_id := 211, submission_id := 111, assessed_by := 9 }

/-- State after A's assessment insert. -/
def raceDb3 : Database := { raceDb2 with nursing_assessments := [raceRowA] }

/-- Final state after B's assessment insert: two nursing assessments for
the one visit. -/
def raceDb4 : Database := { raceDb3 with nursing_assessments := [raceRowA, raceRowB] }

/-- `raceDb0` after request A runs `create_nursing_assessment` to
completion with no interleaving. -/
def serialDbA : Database :=
  { raceDb0 with form_submissions := [raceSubA], nursing_assessments := [raceRowA] }

/-- C3: the duplicate check of `create_nursing_assessment` is only a read
(`get_nursing_assessment_by_visit`, and `find_submission` inside
`_create_form_submission`), and no storage constraint covers the
(visit, form) pair, so two concurrent creators can both succeed.  Under
the schedule where both requests pass every read before either write —
A and B each evaluate the open-visit check, the duplicate-assessment
check and the submission-existence check against `raceDb0`, then the four
writes commit in order (A's submission, B's submission, A's row, B's
row) — every write is accepted, the `unique submission_id` constraint on
`nursing_assessments` fires for neither insert (the submissions are
distinct rows: `form_submissions` has no uniqueness over
(visit_id, form_id)), and the final state carries two nursing assessments
for visit 6.  Serially, the same second request is instead rejected with
the `ConflictError`, confirming the guard is a read-then-insert check
rather than an atomic constraint. -/
theorem concurrent_nursing_create_double_success :
    find_open_visit raceDb0 6 = some raceVisit ∧
    get_nursing_assessment_by_visit raceDb0 6 = none ∧
    find_submission raceDb0 6 12 = none ∧
    insert_submission raceDb0 raceSubA = raceDb1 ∧
    insert_submission raceDb1 raceSubB = raceDb2 ∧
    insert_nursing_row raceDb2 raceRowA = Except.ok raceDb3 ∧
    insert_nursing_row raceDb3 raceRowB = Except.ok raceDb4 ∧
    nursing_count_for_visit raceDb4 6 = 2 ∧
    create_nursing_assessment raceDb0 raceData 8 raceIdsA =
      Except.ok (serialDbA, raceRowA) ∧
    create_nursing_assessment serialDbA raceData 9 raceIdsB =
      Except.error (ServiceError.conflict
        "Nursing assessment already exists for this visit") :=
  ⟨rfl, rfl, rfl, rfl, rfl, rfl, rfl, rfl, rfl, rfl⟩
